import Mathlib

/-!
Verification development for confann, an IRC bot that announces Asterisk
conference joins.  The definitions below are a shallow embedding of the
final revision of the program (main.go): Go strings are modelled as Lean
`String`/`List Char`, Go channels as an explicit `ChanState`, the HTTP
handler as a pure function from a request model to a result record, and
the coordination loop as a step function on a bridge state.
-/

/-- Go `strings.Split(s, sep)` for a one-character separator, on the
character list of the string.  `strings.Split("", ":") = [""]`, and in
general the result has one more element than the number of separators. -/
def goSplit (sep : Char) : List Char → List (List Char)
  | [] => [[]]
  | c :: rest =>
    if c = sep then [] :: goSplit sep rest
    else
      match goSplit sep rest with
      | [] => [[c]]
      | f :: fs => (c :: f) :: fs

/-- Joining fields with the separator; inverse of `goSplit`. -/
def joinSep (sep : Char) : List (List Char) → List Char
  | [] => []
  | [x] => x
  | x :: y :: xs => x ++ sep :: joinSep sep (y :: xs)

/-- Go `strings.TrimSuffix(s, "\n")`: removes one trailing newline if
present. -/
def trimSuffixNL (s : String) : String :=
  if s.toList.getLast? = some '\n' then ⟨s.toList.dropLast⟩ else s

/-- The `passwd` struct of main.go: a Basic-Auth user name and a bcrypt
hash, parsed from the `~/.confann/passwd` file. -/
structure passwd where
  User : String
  Hash : String
deriving DecidableEq, Repr

/-- `parsePasswd` from main.go: trim one trailing newline, split on ":";
a field count other than two (Go: `len(pair) != 2`) is an error,
otherwise the user is field 0 and the hash field 1. -/
def parsePasswd (data : String) : Except String passwd :=
  let pairString := trimSuffixNL data
  match goSplit ':' pairString.data with
  | [u, h] => .ok ⟨⟨u⟩, ⟨h⟩⟩
  | _ => .error "passwd record has more than one seperator"

/-- Startup-sequence actions of `main` that touch the outside world, in
order: dialing the IRC server is the first one after config loading. -/
inductive StartAction where
  | dial
  | serveHTTP
deriving DecidableEq, Repr

/-- The startup prefix of `main` (up to entering the event loop), given
the contents of the two credential files: `loadNickservPW` (trim, empty
is fatal), `buildIRCConfig` (cannot fail), `loadPasswd`/`parsePasswd`,
then `ConnectTo` and the HTTP listener.  Any `log.Fatalf` aborts with an
error before the remaining actions run. -/
def mainStartup (nickservData passwdData : String) :
    Except String passwd × List StartAction :=
  let pass := trimSuffixNL nickservData
  if pass = "" then (.error "empty nickserv secret", [])
  else
    match parsePasswd passwdData with
    | .error e => (.error e, [])
    | .ok p => (.ok p, [.dial, .serveHTTP])

/-- State of one Go channel value: the zero value `nil`, an open channel,
or a closed channel.  (No buffered contents are needed: the program only
ever closes these channels or does blocking sends handled elsewhere.) -/
inductive ChanState where
  | nilChan
  | openChan
  | closedChan
deriving DecidableEq, Repr

/-- The two run-time faults Go raises for a misused `close`. -/
inductive GoFault where
  | closeOfNilChannel
  | closeOfClosedChannel
deriving DecidableEq, Repr

/-- Go `close(ch)`: closing a nil channel or an already-closed channel is
a run-time fault that crashes the process; closing an open channel marks
it closed. -/
def goClose : ChanState → Except GoFault ChanState
  | .nilChan => .error .closeOfNilChannel
  | .closedChan => .error .closeOfClosedChannel
  | .openChan => .ok .closedChan

/-- Go map indexing `m[k]` on a `map[string]chan struct{}`: a missing key
yields the zero value, the nil channel. -/
def lookupChan (m : List (String × ChanState)) (k : String) : ChanState :=
  match m.lookup k with
  | some c => c
  | none => .nilChan

/-- Replace the channel stored under key `k` (the effect, on the map
view, of mutating the channel object the entry points to). -/
def setChan (m : List (String × ChanState)) (k : String) (c : ChanState) :
    List (String × ChanState) :=
  m.map fun kv => if kv.1 = k then (k, c) else kv

/-- The `handlerChans` map built by `defineHandlers` in main.go: it
creates entries under the keys `"connected"` and `"disconnect"` — while
both the disconnected callback and the select loop index the map with
the key `"disconnected"`. -/
def handlerChans : List (String × ChanState) :=
  [("connected", .openChan), ("disconnect", .openChan)]

/-- Body of the `"disconnected"` callback registered in `defineHandlers`:
`close(handlerChans["disconnected"])`.  A run-time fault in the callback
crashes the whole process. -/
def disconnectedHandler (chans : List (String × ChanState)) :
    Except GoFault (List (String × ChanState)) :=
  match goClose (lookupChan chans "disconnected") with
  | .error p => .error p
  | .ok c => .ok (setChan chans "disconnected" c)

/-- Two consecutive deliveries of the disconnected event, each running
the registered callback on the channel map left by the previous one. -/
def deliverDisconnectedTwice (chans : List (String × ChanState)) :
    Except GoFault (List (String × ChanState)) :=
  match disconnectedHandler chans with
  | .error p => .error p
  | .ok c1 => disconnectedHandler c1

/-- Whether a receive on the channel can ever complete: a receive from a
nil channel blocks forever; an open channel can deliver once a sender
sends, and a closed channel delivers immediately. -/
def canEverDeliver : ChanState → Bool
  | .nilChan => false
  | .openChan => true
  | .closedChan => true

/-- The five event sources of the select loop in `main`. -/
inductive LoopEvent where
  | quitReq
  | interrupt
  | connectedEv
  | disconnectedEv
  | apiServerErr
deriving DecidableEq, Repr

/-- Externally visible actions the loop body performs. -/
inductive BridgeAction where
  | closeIRC
  | shutdownHTTP
  | exitZero
  | join (ch : String)
deriving DecidableEq, Repr

/-- The mutable state owned by the coordination loop: the global
`ircReady` flag and whether a value is pending on the buffered `quit`
channel. -/
structure BridgeState where
  ircReady : Bool
  quitPending : Bool
deriving DecidableEq, Repr

/-- One iteration of the select loop in `main`, given which event source
fired: `quit` closes the IRC connection, shuts down the HTTP server and
exits 0; `sigs` and the API-server error enqueue a quit request;
`connected` sets ready and joins "#bots" then the announcement channel;
`disconnected` clears ready and enqueues a quit request. -/
def loopStep (channel : String) (s : BridgeState) :
    LoopEvent → BridgeState × List BridgeAction
  | .quitReq => (s, [.closeIRC, .shutdownHTTP, .exitZero])
  | .interrupt => ({ s with quitPending := true }, [])
  | .connectedEv => ({ s with ircReady := true }, [.join "#bots", .join channel])
  | .disconnectedEv => ({ s with ircReady := false, quitPending := true }, [])
  | .apiServerErr => ({ s with quitPending := true }, [])

/-- The fixed identification string `botMessage` from main.go. -/
def botMessage : String :=
  "confann by alrs@tilde.team answers to \"!botlist\", and \"!botlist\" alone."

/-- The PRIVMSG callback registered in `defineHandlers`: if the line has
at least two arguments and argument 1 (the message text) is exactly
"!botlist", reply with `botMessage` to argument 0 (the target).  The
result is the `(target, text)` of the `Privmsg` reply, if any. -/
def privmsgHandler (args : List String) : Option (String × String) :=
  if 2 ≤ args.length ∧ args[1]! = "!botlist" then some (args[0]!, botMessage)
  else none

/-- The parts of an HTTP request the handler of main.go inspects: the
method, the Basic-Auth triple returned by `r.BasicAuth()`, whether
`r.ParseForm()` succeeds, and the parsed `r.PostForm` multimap. -/
structure APIRequest where
  method : String
  authPresent : Bool
  authUser : String
  authPass : String
  parseFormOk : Bool
  postForm : List (String × List String)
deriving DecidableEq, Repr

/-- The observable outcome of one request: HTTP status and body written,
the `(channel, text)` notice handed to `conn.Notice` (if any), and
whether the bcrypt comparison was reached. -/
structure APIResult where
  status : Nat
  body : String
  notice : Option (String × String)
  bcryptCalled : Bool
deriving DecidableEq, Repr

/-- The HTTP handler returned by `wrapAPIHandler` in main.go.  The slow
one-way hash comparison `bcrypt.CompareHashAndPassword` is abstracted as
a boolean oracle `bcryptOK hash pass` (true when the comparison
succeeds); `bcryptCalled` records whether execution reached it.  A
successful relay writes no explicit status, which the Go HTTP stack
reports as 200 with an empty body. -/
def wrapAPIHandler (pw : passwd) (bcryptOK : String → String → Bool)
    (channel : String) (ircReady : Bool) (r : APIRequest) : APIResult :=
  if r.authPresent = false ∨ r.authUser ≠ pw.User then
    ⟨401, "401", none, false⟩
  else if bcryptOK pw.Hash r.authPass = false then
    ⟨401, "401", none, true⟩
  else if r.method ≠ "POST" then
    ⟨404, "404", none, true⟩
  else if r.parseFormOk = false then
    ⟨400, "400", none, true⟩
  else
    match r.postForm.lookup "CLID" with
    | some post =>
      let clid :=
        match post with
        | v :: _ => v
        | [] => "<< anonymous caller >>"
      let notice := clid ++ " joined the conference."
      if ircReady = false then ⟨503, "503: irc disconnected", none, true⟩
      else ⟨200, "", some (channel, notice), true⟩
    | none => ⟨400, "400", none, true⟩

theorem goSplit_ne_nil (sep : Char) (s : List Char) : goSplit sep s ≠ [] := by
  cases s with
  | nil => simp [goSplit]
  | cons c rest =>
    simp only [goSplit]
    by_cases h : c = sep
    · simp [h]
    · simp only [if_neg h]
      cases goSplit sep rest <;> simp

theorem goSplit_length (sep : Char) (s : List Char) :
    (goSplit sep s).length = s.count sep + 1 := by
  induction s with
  | nil => simp [goSplit]
  | cons c rest ih =>
    simp only [goSplit]
    by_cases h : c = sep
    · simp [h, List.count_cons, ih]
    · simp only [if_neg h]
      have hne := goSplit_ne_nil sep rest
      cases hgs : goSplit sep rest with
      | nil => exact absurd hgs hne
      | cons f fs =>
        have : (f :: fs).length = rest.count sep + 1 := hgs ▸ ih
        simp only [List.length_cons] at this ⊢
        simp [List.count_cons, h, this]

theorem joinSep_goSplit (sep : Char) (s : List Char) :
    joinSep sep (goSplit sep s) = s := by
  induction s with
  | nil => simp [goSplit, joinSep]
  | cons c rest ih =>
    simp only [goSplit]
    by_cases h : c = sep
    · simp only [if_pos h]
      have hne := goSplit_ne_nil sep rest
      cases hgs : goSplit sep rest with
      | nil => exact absurd hgs hne
      | cons f fs =>
        rw [hgs] at ih
        simp [joinSep, ← ih, h]
    · simp only [if_neg h]
      have hne := goSplit_ne_nil sep rest
      cases hgs : goSplit sep rest with
      | nil => exact absurd hgs hne
      | cons f fs =>
        rw [hgs] at ih
        cases fs with
        | nil => simpa [joinSep] using congrArg (c :: ·) ih
        | cons g gs => simpa [joinSep] using congrArg (c :: ·) ih

theorem parsePasswd_eq_ok_iff (data : String) (p : passwd) :
    parsePasswd data = .ok p ↔
      goSplit ':' (trimSuffixNL data).data = [p.User.data, p.Hash.data] := by
  unfold parsePasswd
  obtain ⟨⟨ul⟩, ⟨hl⟩⟩ := p
  cases hgs : goSplit ':' (trimSuffixNL data).data with
  | nil => simp [hgs]
  | cons f fs =>
    cases fs with
    | nil => simp [hgs]
    | cons g gs =>
      cases gs with
      | nil => simp [hgs, String.ext_iff]
      | cons k ks => simp [hgs]

theorem parsePasswd_ok_iff_count (data : String) :
    (∃ p, parsePasswd data = .ok p) ↔ (trimSuffixNL data).data.count ':' = 1 := by
  have hlen := goSplit_length ':' (trimSuffixNL data).data
  constructor
  · rintro ⟨p, hp⟩
    rw [parsePasswd_eq_ok_iff] at hp
    rw [hp] at hlen
    simpa using hlen.symm
  · intro hc
    rw [hc] at hlen
    cases hgs : goSplit ':' (trimSuffixNL data).data with
    | nil => exact absurd hgs (goSplit_ne_nil _ _)
    | cons f fs =>
      cases fs with
      | nil => rw [hgs] at hlen; simp at hlen
      | cons g gs =>
        cases gs with
        | nil =>
          refine ⟨⟨⟨f⟩, ⟨g⟩⟩, ?_⟩
          rw [parsePasswd_eq_ok_iff]
          exact hgs
        | cons k ks => rw [hgs] at hlen; simp at hlen

/-- Claim C5: a credential-file content that, after stripping a single
trailing newline, does not contain exactly one colon (zero colons, two or
more colons, or empty content — equivalently, not exactly two
colon-separated fields) makes `parsePasswd` return an error and the
startup sequence abort before the IRC dial; content with exactly one
colon parses into the identifier and hash fields around that colon. -/
theorem C5_credential_parse (n c : String) :
    ((trimSuffixNL c).data.count ':' ≠ 1 →
      (∃ e, parsePasswd c = .error e) ∧
      StartAction.dial ∉ (mainStartup n c).2) ∧
    ((trimSuffixNL c).data.count ':' = 1 →
      ∃ p, parsePasswd c = .ok p ∧
        (trimSuffixNL c).data = p.User.data ++ ':' :: p.Hash.data) := by
  constructor
  · intro hc
    have herr : ∃ e, parsePasswd c = .error e := by
      cases hp : parsePasswd c with
      | error e => exact ⟨e, rfl⟩
      | ok p =>
        exact absurd (parsePasswd_ok_iff_count c |>.mp ⟨p, hp⟩) hc
    refine ⟨herr, ?_⟩
    unfold mainStartup
    by_cases hn : trimSuffixNL n = ""
    · simp [hn]
    · obtain ⟨e, he⟩ := herr
      simp [hn, he]
  · intro hc
    obtain ⟨p, hp⟩ := (parsePasswd_ok_iff_count c).mpr hc
    refine ⟨p, hp, ?_⟩
    have hgs := (parsePasswd_eq_ok_iff c p).mp hp
    have hj := joinSep_goSplit ':' (trimSuffixNL c).data
    rw [hgs] at hj
    simpa [joinSep] using hj.symm

theorem C5_credential_parse_witness :
    ((∃ e, parsePasswd "nocolonhere" = .error e) ∧
      StartAction.dial ∉ (mainStartup "sekrit" "nocolonhere").2) ∧
    (∃ p, parsePasswd "user:hash\n" = .ok p ∧
      (trimSuffixNL "user:hash\n").data = p.User.data ++ ':' :: p.Hash.data) :=
  ⟨(C5_credential_parse "sekrit" "nocolonhere").1 (by decide),
   (C5_credential_parse "sekrit" "user:hash\n").2 (by decide)⟩

theorem lookup_setChan (m : List (String × ChanState)) (k : String)
    (c v : ChanState) (h : m.lookup k = some v) :
    (setChan m k c).lookup k = some c := by
  induction m with
  | nil => simp at h
  | cons kv rest ih =>
    obtain ⟨a, b⟩ := kv
    simp only [setChan, List.map_cons]
    by_cases hak : a = k
    · subst hak
      have hifa : (if ((a, b) : String × ChanState).1 = a then (a, c) else (a, b)) =
          (a, c) := if_pos rfl
      rw [hifa]
      simp [List.lookup]
    · simp only [if_neg hak]
      have hka : (k == a) = false := by
        simp only [beq_eq_false_iff_ne, ne_eq]
        exact fun he => hak he.symm
      simp only [List.lookup, hka] at h ⊢
      exact ih h

/-- Claim C2 (the code refutes it): the disconnected callback runs
`close(handlerChans["disconnected"])`, but `defineHandlers` only created
the key `"disconnect"`, so the callback closes the nil channel and
crashes the process; moreover the select loop's disconnected case reads
the same nil channel and can never fire, so `ircReady` is never set
false and no shutdown request is enqueued. -/
theorem C2_disconnected_delivery_crashes :
    disconnectedHandler handlerChans = .error .closeOfNilChannel ∧
    canEverDeliver (lookupChan handlerChans "disconnected") = false :=
  ⟨rfl, rfl⟩

/-- Claim C3 (the code refutes it): the disconnected listener is not
safe against repeated invocation — on the program's actual channel map
even the first delivery crashes (close of a nil channel), and for any
channel map on which a first delivery succeeds, a second delivery
necessarily closes the already-closed channel and crashes. -/
theorem C3_double_disconnect_unsafe :
    deliverDisconnectedTwice handlerChans = .error .closeOfNilChannel ∧
    ∀ chans c1, disconnectedHandler chans = .ok c1 →
      disconnectedHandler c1 = .error .closeOfClosedChannel := by
  constructor
  · rfl
  · intro chans c1 h
    unfold disconnectedHandler at h
    cases hl : lookupChan chans "disconnected" with
    | nilChan => rw [hl] at h; simp [goClose] at h
    | closedChan => rw [hl] at h; simp [goClose] at h
    | openChan =>
      rw [hl] at h
      simp only [goClose, Except.ok.injEq] at h
      subst h
      unfold disconnectedHandler
      have hres :
          lookupChan (setChan chans "disconnected" .closedChan)
            "disconnected" = .closedChan := by
        unfold lookupChan at hl ⊢
        cases hlk : chans.lookup "disconnected" with
        | none => rw [hlk] at hl; simp at hl
        | some v =>
          rw [lookup_setChan chans "disconnected" .closedChan v hlk]
      rw [hres]
      rfl

theorem C3_double_disconnect_unsafe_witness :
    disconnectedHandler [("disconnected", ChanState.closedChan)] =
      .error .closeOfClosedChannel :=
  C3_double_disconnect_unsafe.2 [("disconnected", ChanState.openChan)]
    [("disconnected", ChanState.closedChan)] rfl

/-- Claim C9: when the connected event is delivered (its channel key is
spelled correctly, so delivery is possible), the loop sets `ircReady` to
true and issues joins to the mandatory "#bots" channel first and the
configured announcement channel second, in that order. -/
theorem C9_connected_ready_and_join_order (ch : String) (s : BridgeState) :
    canEverDeliver (lookupChan handlerChans "connected") = true ∧
    (loopStep ch s .connectedEv).1.ircReady = true ∧
    (loopStep ch s .connectedEv).2 = [.join "#bots", .join ch] :=
  ⟨rfl, rfl, rfl⟩

/-- Claim C8: on a PRIVMSG line with a target and a content argument,
the handler replies with `botMessage` to the target exactly when the
content is the literal "!botlist"; any other content, including
"!botlist" with trailing text, produces no reply. -/
theorem C8_botlist_exact_match (target content : String) :
    (privmsgHandler [target, content] = some (target, botMessage) ↔
      content = "!botlist") ∧
    (privmsgHandler [target, content] = none ↔ content ≠ "!botlist") := by
  by_cases hc : content = "!botlist" <;> simp [privmsgHandler, hc]

theorem C8_botlist_exact_match_witness :
    privmsgHandler ["#chan", "!botlist"] = some ("#chan", botMessage) ∧
    privmsgHandler ["#chan", "!botlist please"] = none :=
  ⟨(C8_botlist_exact_match "#chan" "!botlist").1.mpr rfl,
   (C8_botlist_exact_match "#chan" "!botlist please").2.mpr (by decide)⟩

/-- Claim C1 (the code refutes the empty-value case): with valid auth,
POST and session ready, a CLID field mapped to the one-element list
containing the empty string — what Go form parsing produces for a
present-but-empty CLID — yields the notice " joined the conference."
with an empty identifier, because the code tests `len(post) > 0` on the
list of values rather than the emptiness of the value itself; the
anonymous-caller placeholder is only reached for an empty value list,
which form parsing never produces.  A non-empty CLID value yields the
value followed by " joined the conference." as claimed. -/
theorem C1_empty_clid_notice :
    wrapAPIHandler ⟨"user", "hash"⟩ (fun _ _ => true) "#alrs" true
      ⟨"POST", true, "user", "pw", true, [("CLID", [""])]⟩ =
      ⟨200, "", some ("#alrs", " joined the conference."), true⟩ ∧
    (" joined the conference." : String) ≠
      "<< anonymous caller >> joined the conference." ∧
    wrapAPIHandler ⟨"user", "hash"⟩ (fun _ _ => true) "#alrs" true
      ⟨"POST", true, "user", "pw", true, [("CLID", ["+15551234567"])]⟩ =
      ⟨200, "", some ("#alrs", "+15551234567 joined the conference."), true⟩ :=
  ⟨rfl, by decide, rfl⟩

/-- Claim C4: a request with the correct identifier but a failing secret
comparison, and a request with absent auth or a wrong identifier (even
when its secret would compare correctly), both receive status 401 with
the same body — the two failure causes are indistinguishable. -/
theorem C4_auth_failures_indistinguishable (pw : passwd)
    (f : String → String → Bool) (ch : String) (rdy : Bool)
    (r1 r2 : APIRequest)
    (h1 : r1.authPresent = true) (h2 : r1.authUser = pw.User)
    (h3 : f pw.Hash r1.authPass = false)
    (h4 : r2.authPresent = false ∨ r2.authUser ≠ pw.User)
    (h5 : f pw.Hash r2.authPass = true) :
    (wrapAPIHandler pw f ch rdy r1).status = 401 ∧
    (wrapAPIHandler pw f ch rdy r2).status = 401 ∧
    (wrapAPIHandler pw f ch rdy r1).status =
      (wrapAPIHandler pw f ch rdy r2).status ∧
    (wrapAPIHandler pw f ch rdy r1).body =
      (wrapAPIHandler pw f ch rdy r2).body := by
  have hn1 : ¬(r1.authPresent = false ∨ r1.authUser ≠ pw.User) := by
    simp [h1, h2]
  unfold wrapAPIHandler
  rw [if_neg hn1, if_pos h3, if_pos h4]
  exact ⟨rfl, rfl, rfl, rfl⟩

theorem C4_auth_failures_indistinguishable_witness :
    (wrapAPIHandler ⟨"u", "h"⟩ (fun _ p => p == "letmein") "#c" true
      ⟨"POST", true, "u", "wrong", true, []⟩).status = 401 ∧
    (wrapAPIHandler ⟨"u", "h"⟩ (fun _ p => p == "letmein") "#c" true
      ⟨"POST", true, "v", "letmein", true, []⟩).status = 401 :=
  ⟨(C4_auth_failures_indistinguishable ⟨"u", "h"⟩ (fun _ p => p == "letmein")
      "#c" true ⟨"POST", true, "u", "wrong", true, []⟩
      ⟨"POST", true, "v", "letmein", true, []⟩
      rfl rfl (by decide) (Or.inr (by decide)) (by decide)).1,
   (C4_auth_failures_indistinguishable ⟨"u", "h"⟩ (fun _ p => p == "letmein")
      "#c" true ⟨"POST", true, "u", "wrong", true, []⟩
      ⟨"POST", true, "v", "letmein", true, []⟩
      rfl rfl (by decide) (Or.inr (by decide)) (by decide)).2.1⟩

/-- Claim C6: a request that passes Basic authentication but whose
method is not POST receives status 404 and no notice is handed to the
chat session. -/
theorem C6_non_post_404 (pw : passwd) (f : String → String → Bool)
    (ch : String) (rdy : Bool) (r : APIRequest)
    (h1 : r.authPresent = true) (h2 : r.authUser = pw.User)
    (h3 : f pw.Hash r.authPass = true) (h4 : r.method ≠ "POST") :
    (wrapAPIHandler pw f ch rdy r).status = 404 ∧
    (wrapAPIHandler pw f ch rdy r).notice = none := by
  have hn1 : ¬(r.authPresent = false ∨ r.authUser ≠ pw.User) := by
    simp [h1, h2]
  have hn2 : ¬(f pw.Hash r.authPass = false) := by simp [h3]
  unfold wrapAPIHandler
  rw [if_neg hn1, if_neg hn2, if_pos h4]
  exact ⟨rfl, rfl⟩

theorem C6_non_post_404_witness :
    (wrapAPIHandler ⟨"u", "h"⟩ (fun _ _ => true) "#c" true
      ⟨"GET", true, "u", "pw", true, []⟩).status = 404 ∧
    (wrapAPIHandler ⟨"u", "h"⟩ (fun _ _ => true) "#c" true
      ⟨"GET", true, "u", "pw", true, []⟩).notice = none :=
  C6_non_post_404 ⟨"u", "h"⟩ (fun _ _ => true) "#c" true
    ⟨"GET", true, "u", "pw", true, []⟩ rfl rfl rfl (by decide)

/-- Claim C7: an authenticated, well-formed POST request carrying a CLID
field that arrives while the session is not ready receives status 503
and no notice is handed to the chat session. -/
theorem C7_not_ready_503 (pw : passwd) (f : String → String → Bool)
    (ch : String) (r : APIRequest)
    (h1 : r.authPresent = true) (h2 : r.authUser = pw.User)
    (h3 : f pw.Hash r.authPass = true) (h4 : r.method = "POST")
    (h5 : r.parseFormOk = true)
    (h6 : ∃ l, r.postForm.lookup "CLID" = some l) :
    (wrapAPIHandler pw f ch false r).status = 503 ∧
    (wrapAPIHandler pw f ch false r).notice = none := by
  obtain ⟨l, hl⟩ := h6
  have hn1 : ¬(r.authPresent = false ∨ r.authUser ≠ pw.User) := by
    simp [h1, h2]
  have hn2 : ¬(f pw.Hash r.authPass = false) := by simp [h3]
  have hn3 : ¬(r.method ≠ "POST") := by simp [h4]
  have hn4 : ¬(r.parseFormOk = false) := by simp [h5]
  unfold wrapAPIHandler
  rw [if_neg hn1, if_neg hn2, if_neg hn3, if_neg hn4, hl]
  exact ⟨rfl, rfl⟩

theorem C7_not_ready_503_witness :
    (wrapAPIHandler ⟨"u", "h"⟩ (fun _ _ => true) "#c" false
      ⟨"POST", true, "u", "pw", true, [("CLID", ["+15551234567"])]⟩).status =
      503 ∧
    (wrapAPIHandler ⟨"u", "h"⟩ (fun _ _ => true) "#c" false
      ⟨"POST", true, "u", "pw", true, [("CLID", ["+15551234567"])]⟩).notice =
      none :=
  C7_not_ready_503 ⟨"u", "h"⟩ (fun _ _ => true) "#c"
    ⟨"POST", true, "u", "pw", true, [("CLID", ["+15551234567"])]⟩
    rfl rfl rfl rfl rfl ⟨["+15551234567"], rfl⟩

/-- Claim C10: when Basic auth is absent or the supplied identifier
differs from the stored one, the handler returns before the bcrypt
comparison: the comparison is never performed and the result does not
depend on the supplied secret (nor on the hash-comparison oracle at
all). -/
theorem C10_identifier_short_circuits (pw : passwd)
    (f g : String → String → Bool) (ch : String) (rdy : Bool)
    (r : APIRequest)
    (h : r.authPresent = false ∨ r.authUser ≠ pw.User) :
    (wrapAPIHandler pw f ch rdy r).bcryptCalled = false ∧
    ∀ p1 p2, wrapAPIHandler pw f ch rdy { r with authPass := p1 } =
      wrapAPIHandler pw g ch rdy { r with authPass := p2 } := by
  constructor
  · unfold wrapAPIHandler
    rw [if_pos h]
  · intro p1 p2
    have h1 : ({ r with authPass := p1 } : APIRequest).authPresent = false ∨
        ({ r with authPass := p1 } : APIRequest).authUser ≠ pw.User := h
    have h2 : ({ r with authPass := p2 } : APIRequest).authPresent = false ∨
        ({ r with authPass := p2 } : APIRequest).authUser ≠ pw.User := h
    unfold wrapAPIHandler
    rw [if_pos h1, if_pos h2]

theorem C10_identifier_short_circuits_witness :
    (wrapAPIHandler ⟨"u", "h"⟩ (fun _ _ => true) "#c" true
      ⟨"POST", true, "v", "x", true, []⟩).bcryptCalled = false ∧
    wrapAPIHandler ⟨"u", "h"⟩ (fun _ _ => true) "#c" true
      ⟨"POST", true, "v", "a", true, []⟩ =
    wrapAPIHandler ⟨"u", "h"⟩ (fun _ _ => false) "#c" true
      ⟨"POST", true, "v", "b", true, []⟩ :=
  ⟨(C10_identifier_short_circuits ⟨"u", "h"⟩ (fun _ _ => true)
      (fun _ _ => false) "#c" true ⟨"POST", true, "v", "x", true, []⟩
      (Or.inr (by decide))).1,
   (C10_identifier_short_circuits ⟨"u", "h"⟩ (fun _ _ => true)
      (fun _ _ => false) "#c" true ⟨"POST", true, "v", "x", true, []⟩
      (Or.inr (by decide))).2 "a" "b"⟩
